import Mathlib

/-!
Verification of the chat relay in `app/chat/chat.py`.

Python strings are embedded as `List Char` (`PyStr`), the process-wide
`active_users` set as a `Finset PyStr`, and the Redis-backed history store as a
total map from keys to lists of encoded messages (a missing key maps to `[]`,
matching Redis semantics for LRANGE on a nonexistent key).
-/

/-- A Python `str`, embedded as its sequence of characters. -/
abbrev PyStr := List Char

/-! ## Message codec (`validate_message`, `encode_*`, `decode_message`) -/

/-- `validate_message`: `message.startswith('@') and ' ' in message`. -/
def validate_message (message : PyStr) : Bool :=
  decide (message.head? = some '@') && message.contains ' '

/-- `encode_channel`: the f-string `channel_{user_id}`. -/
def encode_channel (user_id : PyStr) : PyStr :=
  "channel_".data ++ user_id

/-- `encode_history_list`: the f-string `history_list_{user_id}`. -/
def encode_history_list (user_id : PyStr) : PyStr :=
  "history_list_".data ++ user_id

/-- `encode_messsage` (sic): the f-string `@{user_id} {message}`; note the
source's parameter order is `(message, user_id)`. -/
def encode_messsage (message : PyStr) (user_id : PyStr) : PyStr :=
  '@' :: user_id ++ ' ' :: message

/-- `decode_message`: `message[1:].split(' ', 1)` unpacked into two variables.
When the remainder holds no space, `split` yields a single element and the
two-variable unpacking raises `ValueError`, embedded as `none`. -/
def decode_message (message : PyStr) : Option (PyStr × PyStr) :=
  if (message.tail).contains ' ' then
    some ((message.tail).takeWhile (· != ' '),
      ((message.tail).dropWhile (· != ' ')).tail)
  else
    none

/-! ## Presence Registry (the process-wide `active_users` set)

The source manipulates `active_users` with Python set operations: membership
test, `add`, and `remove`. Python `set.remove` raises `KeyError` when the
element is absent, embedded as `none`. -/

def set_add (active : Finset PyStr) (user_id : PyStr) : Finset PyStr :=
  insert user_id active

def set_remove (active : Finset PyStr) (user_id : PyStr) : Option (Finset PyStr) :=
  if user_id ∈ active then some (active.erase user_id) else none

/-! ## Session orchestration (`handle_ws_connection`)

The handler's externally visible actions are embedded as an event trace.
`awaitPendingTasks` stands for an await of the cancelled tasks after
`task.cancel()`; the source has no statement that performs it, so no branch of
the embedding ever emits it. `keyError` marks the (unreachable) failure of
`active_users.remove`. -/

inductive SessionEvent where
  | acceptConn : SessionEvent
  | sendText : PyStr → SessionEvent
  | close : SessionEvent
  | spawnSendTask : SessionEvent
  | spawnReceiveTask : SessionEvent
  | waitFirstCompleted : SessionEvent
  | cancelPending : SessionEvent
  | awaitPendingTasks : SessionEvent
  | unregistered : PyStr → SessionEvent
  | keyError : SessionEvent
deriving DecidableEq

structure AdmissionResult where
  events : List SessionEvent
  registry : Finset PyStr
  running : Bool

structure SessionResult where
  events : List SessionEvent
  registry : Finset PyStr

/-- Lines 83–94 of `chat.py`: `await ws.accept()`, the `user_id in
active_users` check with the rejection notice and close, and on success
`active_users.add(user_id)`. `running` records whether the session enters the
Running state. -/
def admission (active : Finset PyStr) (user_id : PyStr) : AdmissionResult :=
  if user_id ∈ active then
    { events := [.acceptConn, .sendText "ERROR: User is already active".data, .close]
    , registry := active
    , running := false }
  else
    { events := [.acceptConn]
    , registry := set_add active user_id
    , running := true }

/-- Lines 96–108 of `chat.py`: spawn the two flow tasks, `asyncio.wait` with
`FIRST_COMPLETED`, `task.cancel()` on each pending task (with no await of the
cancelled tasks), then `active_users.remove(user_id)`. -/
def session_run (active : Finset PyStr) (user_id : PyStr) : SessionResult :=
  match set_remove active user_id with
  | some registry =>
    { events := [.spawnSendTask, .spawnReceiveTask, .waitFirstCompleted,
        .cancelPending, .unregistered user_id]
    , registry := registry }
  | none =>
    { events := [.spawnSendTask, .spawnReceiveTask, .waitFirstCompleted,
        .cancelPending, .keyError]
    , registry := active }

/-- `handle_ws_connection`: admission followed, when admitted, by the running
session and its teardown. -/
def handle_ws_connection (active : Finset PyStr) (user_id : PyStr) : SessionResult :=
  let a := admission active user_id
  if a.running then
    { events := a.events ++ (session_run a.registry user_id).events
    , registry := (session_run a.registry user_id).registry }
  else
    { events := a.events, registry := a.registry }

/-- The text frames sent over the connection, in order, within a trace. -/
def sent_frames (events : List SessionEvent) : List PyStr :=
  events.filterMap fun e =>
    match e with
    | .sendText f => some f
    | _ => none

/-! ## Inbound flow (`receive`) -/

inductive FrameResult where
  | reply : PyStr → FrameResult
  | deliver : PyStr → PyStr → PyStr → FrameResult
  | valueError : FrameResult
deriving DecidableEq

/-- One iteration of the `while True` loop in `receive` (lines 55–80), for one
received frame: validation, decoding, the recipient-activity check, and on
success the publish to the recipient's channel together with the push onto the
recipient's history list — `deliver channel history_list message`.
`valueError` is the unpacking failure of `decode_message`, unreachable once
validation passed. -/
def receive_step (active : Finset PyStr) (user_id : PyStr) (raw_message : PyStr) :
    FrameResult :=
  if validate_message raw_message = false then
    .reply "ERROR: Invalid message".data
  else
    match decode_message raw_message with
    | none => .valueError
    | some (dest_user_id, message) =>
      if dest_user_id ∉ active then
        .reply "ERROR: User is not active".data
      else
        .deliver (encode_channel dest_user_id) (encode_history_list dest_user_id)
          (encode_messsage message user_id)

/-- The loop itself over the sequence of frames the connection delivers: every
frame is processed and the loop continues after an error reply. -/
def receive (active : Finset PyStr) (user_id : PyStr) (frames : List PyStr) :
    List FrameResult :=
  match frames with
  | [] => []
  | raw_message :: rest =>
    receive_step active user_id raw_message :: receive active user_id rest

/-! ## Outbound flow (`send`) -/

structure PubSubEvent where
  type : PyStr
  data : PyStr
deriving DecidableEq

/-- How the `async for message in pubsub.listen()` loop in `send` ends. -/
inductive FlowExit where
  | streamEnded : FlowExit
  | redisError : FlowExit
  | wsDisconnect : FlowExit
  | cancelled : FlowExit
deriving DecidableEq

structure SendOutcome where
  channel : PyStr
  frames : List PyStr
  unsubscribed : Bool
deriving DecidableEq

/-- Lines 35–52 of `chat.py`: subscribe to `channel_<user_id>`; the loop
forwards the data of every delivered event whose type is `'message'`; the
`pubsub.unsubscribe` line sits after the loop, so it runs only when the
`listen` stream ends normally — `except RedisError` and
`except WebSocketDisconnect` return from the function first, and a
cancellation propagates out of it, all three skipping the unsubscribe. -/
def send (user_id : PyStr) (delivered : List PubSubEvent) (ending : FlowExit) :
    SendOutcome :=
  { channel := encode_channel user_id
  , frames := (delivered.filter fun e => e.type == "message".data).map PubSubEvent.data
  , unsubscribed :=
      match ending with
      | .streamEnded => true
      | .redisError => false
      | .wsDisconnect => false
      | .cancelled => false }

/-! ## History store (`get_history`)

The Redis list store is embedded as a total map from keys to lists; a key that
was never written maps to `[]`, which is what Redis LRANGE returns for a
missing key. `lpush` prepends, so a stored list is newest-first. -/

def lpush (store : PyStr → List PyStr) (key message : PyStr) : PyStr → List PyStr :=
  fun k => if k = key then message :: store k else store k

/-- Redis `LRANGE key start stop`: zero-based inclusive range, negative
indices counting from the end of the list, out-of-range indices clamped. -/
def lrange (l : List PyStr) (start stop : Int) : List PyStr :=
  let s : Int := if start < 0 then max ((l.length : Int) + start) 0 else start
  let e : Int := if stop < 0 then (l.length : Int) + stop else stop
  if e < s then [] else (l.take (e.toNat + 1)).drop s.toNat

/-- `get_history` (lines 111–117): `conn.lrange(history_list, 0,
chat_settings.history_length - 1)`. The module `app/chat/settings.py` is not
among the sources; the spec only says `history_length` is a configuration
value, so it is taken here as a parameter. -/
def get_history (store : PyStr → List PyStr) (history_length : Int)
    (user_id : PyStr) : List PyStr :=
  lrange (store (encode_history_list user_id)) 0 (history_length - 1)

/-! ## Helper lemmas on the codec -/

theorem contains_iff_mem (l : List Char) (c : Char) :
    l.contains c = true ↔ c ∈ l := by
  simp [List.contains]

theorem validate_message_spec (s : PyStr) :
    validate_message s = true ↔ (∃ t, s = '@' :: t) ∧ ' ' ∈ s := by
  unfold validate_message
  rw [Bool.and_eq_true, decide_eq_true_iff, contains_iff_mem]
  constructor
  · rintro ⟨h1, h2⟩
    cases s with
    | nil => simp at h1
    | cons a t =>
      simp only [List.head?_cons, Option.some.injEq] at h1
      exact ⟨⟨t, by rw [h1]⟩, h2⟩
  · rintro ⟨⟨t, rfl⟩, h2⟩
    exact ⟨rfl, h2⟩

theorem takeWhile_append_of_not_mem (l r : List Char) (h : ' ' ∉ l) :
    (l ++ ' ' :: r).takeWhile (· != ' ') = l ∧
      (l ++ ' ' :: r).dropWhile (· != ' ') = ' ' :: r := by
  induction l with
  | nil =>
    constructor
    · simp [List.takeWhile_cons]
    · simp [List.dropWhile_cons]
  | cons a l ih =>
    have ha : a ≠ ' ' := fun hc => h (by simp [hc])
    have hl : ' ' ∉ l := fun hc => h (List.mem_cons_of_mem _ hc)
    obtain ⟨ih1, ih2⟩ := ih hl
    constructor
    · simpa [List.takeWhile_cons, ha] using ih1
    · simpa [List.dropWhile_cons, ha] using ih2

theorem split_first_space (m : List Char) (h : ' ' ∈ m) :
    m = m.takeWhile (· != ' ') ++ ' ' :: (m.dropWhile (· != ' ')).tail ∧
      ' ' ∉ m.takeWhile (· != ' ') := by
  induction m with
  | nil => cases h
  | cons a t ih =>
    by_cases ha : a = ' '
    · subst ha
      constructor
      · simp [List.takeWhile_cons, List.dropWhile_cons]
      · simp [List.takeWhile_cons]
    · have ht : ' ' ∈ t := by
        cases h with
        | head => exact absurd rfl ha
        | tail _ h => exact h
      obtain ⟨ih1, ih2⟩ := ih ht
      constructor
      · rw [List.takeWhile_cons_of_pos (by simp [ha]),
          List.dropWhile_cons_of_pos (by simp [ha]), List.cons_append]
        exact congrArg (a :: ·) ih1
      · rw [List.takeWhile_cons_of_pos (by simp [ha])]
        intro hc
        cases hc with
        | head => exact ha rfl
        | tail _ hc => exact ih2 hc

/-! ## Claim theorems on the codec -/

/-- C5: for every raw string `s`, `validate_message s` is true iff `s` starts
with the character `'@'` and `s` contains at least one space character. -/
theorem validate_characterization (s : PyStr) :
    validate_message s = true ↔ (∃ t, s = '@' :: t) ∧ ' ' ∈ s :=
  validate_message_spec s

/-- C5 witness: the characterization evaluated at the concrete frame `"@a b"`. -/
theorem validate_characterization_witness :
    validate_message "@a b".data = true :=
  (validate_characterization "@a b".data).mpr ⟨⟨"a b".data, by decide⟩, by decide⟩

/-- C7: `encode_messsage body sender` (the source's `encode_messsage(message,
user_id)`) produces exactly `'@' + senderId + ' ' + body`, with the body
embedded verbatim, for every sender and every body including the empty one. -/
theorem encode_exact_form (sender body : PyStr) :
    encode_messsage body sender = ['@'] ++ sender ++ [' '] ++ body := by
  simp [encode_messsage]

/-- C6: on every validated input, decoding is total and deterministic: it
strips the leading `'@'` and splits the remainder at the first space into a
recipient (space-free) and a body, which may be empty. -/
theorem decode_total_on_valid (s : PyStr) (h : validate_message s = true) :
    ∃ r b, decode_message s = some (r, b) ∧ s = '@' :: (r ++ ' ' :: b) ∧ ' ' ∉ r := by
  obtain ⟨⟨t, rfl⟩, hsp⟩ := (validate_message_spec s).mp h
  have hts : ' ' ∈ t := by
    cases hsp with
    | tail _ h => exact h
  obtain ⟨heq, hnot⟩ := split_first_space t hts
  refine ⟨t.takeWhile (· != ' '), (t.dropWhile (· != ' ')).tail, ?_, ?_, hnot⟩
  · unfold decode_message
    rw [List.tail_cons]
    rw [if_pos ((contains_iff_mem t ' ').mpr hts)]
  · exact congrArg ('@' :: ·) heq

/-- C6 witness: the frame `"@id "` validates, and by direct evaluation it
decodes to recipient `"id"` with an empty body, delivered as-is rather than
rejected. -/
theorem decode_total_on_valid_witness :
    (validate_message "@id ".data = true ∧
      ∃ r b, decode_message "@id ".data = some (r, b) ∧
        "@id ".data = '@' :: (r ++ ' ' :: b) ∧ ' ' ∉ r) ∧
      decode_message "@id ".data = some ("id".data, []) :=
  ⟨⟨by decide, decode_total_on_valid "@id ".data (by decide)⟩, by decide⟩

/-- C10: for every space-free sender and every body, the encoded wire form
passes `validate_message` and `decode_message` recovers exactly the sender and
the body. -/
theorem encode_decode_roundtrip (sender body : PyStr) (h : ' ' ∉ sender) :
    validate_message (encode_messsage body sender) = true ∧
      decode_message (encode_messsage body sender) = some (sender, body) := by
  obtain ⟨htake, hdrop⟩ := takeWhile_append_of_not_mem sender body h
  constructor
  · exact (validate_message_spec _).mpr
      ⟨⟨sender ++ ' ' :: body, rfl⟩, by simp [encode_messsage]⟩
  · unfold decode_message encode_messsage
    rw [List.cons_append, List.tail_cons]
    rw [if_pos ((contains_iff_mem _ ' ').mpr (by simp))]
    rw [htake, hdrop, List.tail_cons]

/-- C10 witness: round-trip at sender `"A"`, body `"hi there"`. -/
theorem encode_decode_roundtrip_witness :
    validate_message (encode_messsage "hi there".data "A".data) = true ∧
      decode_message (encode_messsage "hi there".data "A".data) =
        some ("A".data, "hi there".data) :=
  encode_decode_roundtrip "A".data "hi there".data (by decide)

/-! ## Claim theorems on admission, teardown, and the registry -/

/-- C1: a connection for `u` is accepted (the session enters Running and `u`
is inserted into the Presence Registry) iff `u` is not currently registered;
otherwise the new connection receives exactly the notice
`"ERROR: User is already active"`, is closed, and the registry is left
unchanged. -/
theorem admission_contract (active : Finset PyStr) (u : PyStr) :
    ((admission active u).running = true ↔ u ∉ active) ∧
    (u ∈ active →
      sent_frames (admission active u).events = ["ERROR: User is already active".data] ∧
      SessionEvent.close ∈ (admission active u).events ∧
      (admission active u).registry = active) ∧
    (u ∉ active →
      (admission active u).registry = insert u active ∧
      sent_frames (admission active u).events = [] ∧
      SessionEvent.close ∉ (admission active u).events) := by
  by_cases h : u ∈ active <;>
    simp [admission, set_add, sent_frames, List.filterMap_cons, h]

/-- C1 witness: with `"A"` already registered, a second connection for `"A"`
is rejected with exactly the notice, closed, and the registry is unchanged. -/
theorem admission_contract_witness :
    ("A".data ∈ ({"A".data} : Finset PyStr)) ∧
      (sent_frames (admission {"A".data} "A".data).events =
          ["ERROR: User is already active".data] ∧
        SessionEvent.close ∈ (admission {"A".data} "A".data).events ∧
        (admission {"A".data} "A".data).registry = {"A".data}) :=
  ⟨by decide, (admission_contract {"A".data} "A".data).2.1 (by decide)⟩

/-- C2 counterexample: for the admitted connection `"B"` on an empty registry,
the claim as stated fails — in particular the session never awaits the
cancelled flow after `task.cancel()`, so "waits for both to finish" is false
(the other conjuncts of the claim hold). -/
theorem session_teardown_claim_false :
    ¬ (SessionEvent.cancelPending ∈ (handle_ws_connection ∅ "B".data).events ∧
       SessionEvent.awaitPendingTasks ∈ (handle_ws_connection ∅ "B".data).events ∧
       (handle_ws_connection ∅ "B".data).events.count
         (SessionEvent.unregistered "B".data) = 1 ∧
       "B".data ∉ (handle_ws_connection ∅ "B".data).registry ∧
       (admission (handle_ws_connection ∅ "B".data).registry "B".data).running = true) := by
  decide

/-- C2 amended: as soon as either flow terminates the session cancels the
other flow but does not wait for the cancelled flow to finish; afterwards
`unregister(userId)` is called exactly once regardless of which flow ended,
the user is no longer active, and a subsequent connection for the same user is
admitted. -/
theorem session_teardown_no_await (active : Finset PyStr) (u : PyStr)
    (h : u ∉ active) :
    SessionEvent.cancelPending ∈ (handle_ws_connection active u).events ∧
    SessionEvent.awaitPendingTasks ∉ (handle_ws_connection active u).events ∧
    (handle_ws_connection active u).events.count (SessionEvent.unregistered u) = 1 ∧
    u ∉ (handle_ws_connection active u).registry ∧
    (admission (handle_ws_connection active u).registry u).running = true := by
  have hmem : u ∈ insert u active := Finset.mem_insert_self u active
  have hne : u ∉ (insert u active).erase u := Finset.not_mem_erase u _
  simp [handle_ws_connection, admission, session_run, set_remove, set_add, h,
    hmem, hne, List.count_cons, List.count_nil]

/-- C2 witness: the amended teardown property at the concrete session `"B"`
over the empty registry. -/
theorem session_teardown_no_await_witness :
    ("B".data ∉ (∅ : Finset PyStr)) ∧
      (SessionEvent.cancelPending ∈ (handle_ws_connection ∅ "B".data).events ∧
        SessionEvent.awaitPendingTasks ∉ (handle_ws_connection ∅ "B".data).events ∧
        (handle_ws_connection ∅ "B".data).events.count
          (SessionEvent.unregistered "B".data) = 1 ∧
        "B".data ∉ (handle_ws_connection ∅ "B".data).registry ∧
        (admission (handle_ws_connection ∅ "B".data).registry "B".data).running = true) :=
  ⟨by decide, session_teardown_no_await ∅ "B".data (by decide)⟩

/-- C9 counterexample: removing the absent id `"B"` from the empty registry is
not a no-op that leaves the registry unchanged — `set.remove` raises
`KeyError`, embedded as `none`. -/
theorem unregister_absent_fails :
    ¬ (set_remove (∅ : Finset PyStr) "B".data = some ∅) := by
  decide

/-- C9 amended: the registry's remove operation is not idempotent: removing an
absent id fails with `KeyError`, while removing a present id removes exactly
that id. -/
theorem unregister_behavior (s : Finset PyStr) (u : PyStr) :
    (u ∉ s → set_remove s u = none) ∧
    (u ∈ s → set_remove s u = some (s.erase u)) := by
  constructor <;> intro h <;> simp [set_remove, h]

/-- C9 witness: removing `"B"` from the empty registry fails. -/
theorem unregister_behavior_witness :
    ("B".data ∉ (∅ : Finset PyStr)) ∧ set_remove ∅ "B".data = none :=
  ⟨by decide, (unregister_behavior ∅ "B".data).1 (by decide)⟩

/-! ## Claim theorems on the two flows -/

/-- C3: per received frame, an invalid frame draws exactly
`"ERROR: Invalid message"` back to the sender; a valid frame whose decoded
recipient is not active draws exactly `"ERROR: User is not active"` with no
publish and no history push; otherwise the body is re-encoded with the
sender's own id and delivered to `channel_<recipient>` and
`history_list_<recipient>`; in every case the loop continues with the next
frame. -/
theorem inbound_frame_contract (active : Finset PyStr) (user_id raw_message : PyStr) :
    (validate_message raw_message = false →
      receive_step active user_id raw_message =
        FrameResult.reply "ERROR: Invalid message".data) ∧
    (∀ dest_user_id message,
      validate_message raw_message = true →
      decode_message raw_message = some (dest_user_id, message) →
      (dest_user_id ∉ active →
        receive_step active user_id raw_message =
          FrameResult.reply "ERROR: User is not active".data) ∧
      (dest_user_id ∈ active →
        receive_step active user_id raw_message =
          FrameResult.deliver ("channel_".data ++ dest_user_id)
            ("history_list_".data ++ dest_user_id)
            ('@' :: user_id ++ ' ' :: message))) ∧
    (∀ rest, receive active user_id (raw_message :: rest) =
      receive_step active user_id raw_message :: receive active user_id rest) := by
  refine ⟨?_, ?_, fun rest => rfl⟩
  · intro hv
    simp [receive_step, hv]
  · intro dest_user_id message hv hd
    constructor <;> intro hm <;>
      simp [receive_step, hv, hd, hm, encode_channel, encode_history_list,
        encode_messsage]

/-- C3 witness: with `"B"` active, `"A"` sending `"@B hi"` delivers `"@A hi"`
to `"B"`'s channel and history list. -/
theorem inbound_frame_contract_witness :
    (validate_message "@B hi".data = true ∧
      decode_message "@B hi".data = some ("B".data, "hi".data) ∧
      "B".data ∈ ({"B".data} : Finset PyStr)) ∧
      receive_step {"B".data} "A".data "@B hi".data =
        FrameResult.deliver ("channel_".data ++ "B".data)
          ("history_list_".data ++ "B".data) ('@' :: "A".data ++ ' ' :: "hi".data) :=
  ⟨⟨by decide, by decide, by decide⟩,
    ((inbound_frame_contract {"B".data} "A".data "@B hi".data).2.1 "B".data
      "hi".data (by decide) (by decide)).2 (by decide)⟩

/-- C4 (code bug): the outbound flow does subscribe to `channel_<userId>` and
forwards delivered payloads verbatim, but on every exit that can actually
happen while subscribed — remote disconnect, bus error, cancellation — the
unsubscribe line after the `listen` loop is skipped, so the flow does not
unsubscribe; only a normal end of the stream would reach it. -/
theorem outbound_unsubscribe_skipped :
    send "A".data [{ type := "message".data, data := "@B hi".data }]
        FlowExit.wsDisconnect =
      { channel := "channel_A".data, frames := ["@B hi".data], unsubscribed := false } ∧
    (send "A".data [] FlowExit.redisError).unsubscribed = false ∧
    (send "A".data [] FlowExit.cancelled).unsubscribed = false ∧
    (send "A".data [] FlowExit.streamEnded).unsubscribed = true := by
  decide

/-! ## Claim theorem on the history read path -/

/-- C8: for a positive configured `history_length`, `get_history` returns the
prefix of the stored newest-first list of length at most `history_length`,
returns `[]` when the key was never written, and after an `lpush` the pushed
(newest) message is the first entry of the result — all without mutating the
store, which the read never touches. -/
theorem get_history_contract (store : PyStr → List PyStr) (history_length : Int)
    (u : PyStr) (h : 1 ≤ history_length) :
    get_history store history_length u =
        (store (encode_history_list u)).take history_length.toNat ∧
      (get_history store history_length u).length ≤ history_length.toNat ∧
      (store (encode_history_list u) = [] → get_history store history_length u = []) ∧
      (∀ m, get_history (lpush store (encode_history_list u) m) history_length u =
        (m :: store (encode_history_list u)).take history_length.toNat) := by
  have key : ∀ l : List PyStr, lrange l 0 (history_length - 1) =
      l.take history_length.toNat := by
    intro l
    simp only [lrange]
    rw [if_neg (by omega : ¬ (0:Int) < 0),
      if_neg (by omega : ¬ history_length - 1 < 0),
      if_neg (by omega : ¬ history_length - 1 < (0:Int))]
    rw [show (history_length - 1).toNat + 1 = history_length.toNat by omega]
    simp
  refine ⟨key _, ?_, ?_, ?_⟩
  · rw [get_history, key]
    simp [List.length_take]
  · intro hempty
    rw [get_history, hempty, key]
    simp
  · intro m
    rw [get_history, key]
    simp [lpush]

/-- C8 witness: on an unwritten store with configured length 10, the history
of `"B"` is empty. -/
theorem get_history_contract_witness :
    ((1:Int) ≤ 10) ∧ get_history (fun _ => []) 10 "B".data = [] :=
  ⟨by norm_num,
    (get_history_contract (fun _ => ([] : List PyStr)) 10 "B".data
      (by norm_num)).2.2.1 rfl⟩
